import Mathlib

/-!
Verification of the Resilient Analysis Run Engine of the CUJ-Autorater
repository against its natural-language specification.

The Python source is shallowly embedded: pure functions become Lean
functions over `Nat`/`Int`/`ℚ`/`String`, Python `None` becomes `Option`,
fallible remote calls become `Except`-valued oracles, and the SQLite
tables become lists of row structures.  Every definition is translated
from the source files (`config.py`, `drive_client.py`, `app.py`,
`storage.py`); the corresponding source location is named in each doc
comment.
-/

/- ===================== Cost Model (config.py) ===================== -/

/-- One entry of the `MODELS` table in `config.py`.  The two per-million
token rates are embedded as exact rationals. -/
structure ModelInfo where
  display_name : String
  cost_per_m_tokens_input : ℚ
  cost_per_m_tokens_output : ℚ
  supports_video : Bool
deriving Repr, DecidableEq

/-- The `MODELS` dictionary of `config.py` as an association list, in
source order. -/
def MODELS : List (String × ModelInfo) :=
  [ ("gemini-3-pro-preview",
      ⟨"Gemini 3 Pro Preview (Most Advanced)", 2.00, 12.00, true⟩),
    ("gemini-2.5-pro",
      ⟨"Gemini 2.5 Pro (Recommended - Best Reasoning)", 1.25, 10.00, true⟩),
    ("gemini-2.5-flash",
      ⟨"Gemini 2.5 Flash (Best Quality)", 0.30, 2.50, true⟩),
    ("gemini-2.5-flash-lite",
      ⟨"Gemini 2.5 Flash-Lite (Fastest & Cheapest)", 0.10, 0.40, true⟩),
    ("gemini-2.0-flash",
      ⟨"Gemini 2.0 Flash (Stable)", 0.10, 0.40, true⟩),
    ("gemini-2.0-flash-lite",
      ⟨"Gemini 2.0 Flash-Lite (Ultra Budget)", 0.075, 0.30, true⟩),
    ("gemini-2.0-flash-exp",
      ⟨"Gemini 2.0 Flash Experimental (Cutting Edge)", 0.00, 0.00, true⟩) ]

/-- `DEFAULT_MODEL` from `config.py`. -/
def DEFAULT_MODEL : String := "gemini-2.5-pro"

/-- `TOKENS_PER_VIDEO_SECOND` from `config.py`. -/
def TOKENS_PER_VIDEO_SECOND : ℚ := 258

/-- `TOKENS_PER_AUDIO_SECOND` from `config.py`. -/
def TOKENS_PER_AUDIO_SECOND : ℚ := 25

/-- `AVERAGE_PROMPT_TOKENS` from `config.py`. -/
def AVERAGE_PROMPT_TOKENS : ℚ := 1000

/-- `AVERAGE_RESPONSE_TOKENS` from `config.py`. -/
def AVERAGE_RESPONSE_TOKENS : ℚ := 500

/-- `get_model_info` from `config.py`:
`MODELS.get(model_id, MODELS[DEFAULT_MODEL])`.  The inner fallback
default is unreachable because `DEFAULT_MODEL` is a key of `MODELS`. -/
def get_model_info (model_id : String) : ModelInfo :=
  match MODELS.lookup model_id with
  | some info => info
  | none =>
    match MODELS.lookup DEFAULT_MODEL with
    | some info => info
    | none => ⟨"", 0, 0, false⟩

/-- Python `int(...)` applied to an exact rational: truncation toward
zero, i.e. t-division of the numerator by the denominator. -/
def pyInt (q : ℚ) : ℤ := Int.tdiv q.num (q.den : ℤ)

/-- The dictionary returned by `estimate_cost` in `config.py`. -/
structure CostEstimate where
  input_tokens : ℤ
  output_tokens : ℤ
  total_tokens : ℤ
  input_cost : ℚ
  output_cost : ℚ
  total_cost : ℚ
  model : String
  model_display_name : String
deriving Repr, DecidableEq

/-- `estimate_cost` from `config.py`, lines 145-176.  The arithmetic is
performed on exact rationals; the two `int(...)` conversions of the
source are `pyInt`. -/
def estimate_cost (video_duration_seconds : ℚ)
    (model_id : String := DEFAULT_MODEL) : CostEstimate :=
  let model_info := get_model_info model_id
  let video_tokens := video_duration_seconds *
    (TOKENS_PER_VIDEO_SECOND + TOKENS_PER_AUDIO_SECOND)
  let total_input_tokens := video_tokens + AVERAGE_PROMPT_TOKENS
  let input_cost := (total_input_tokens / 1000000) *
    model_info.cost_per_m_tokens_input
  let output_cost := (AVERAGE_RESPONSE_TOKENS / 1000000) *
    model_info.cost_per_m_tokens_output
  let total_cost := input_cost + output_cost
  { input_tokens := pyInt total_input_tokens
    output_tokens := 500
    total_tokens := pyInt (total_input_tokens + AVERAGE_RESPONSE_TOKENS)
    input_cost := input_cost
    output_cost := output_cost
    total_cost := total_cost
    model := model_id
    model_display_name := model_info.display_name }

/- ===================== Retry Policy (drive_client.py) ===================== -/

/-- A Python exception reaching the retry wrapper: either an `HttpError`
carrying an HTTP status, or any other exception. -/
inductive PyError where
  | httpError (status : Nat)
  | other (msg : String)
deriving Repr, DecidableEq

/-- Outcome of `DriveClient.exponential_backoff_retry`: the wrapped
value, one of the distinguished `DriveAPIError` raises of the source
(rate limit exhausted, server errors exhausted, loop bound raise), or a
fatal error propagated after a single attempt. -/
inductive RetryOutcome (α : Type) where
  | ok (a : α)
  | rateLimitExhausted (max_retries : Nat)
  | serverErrorExhausted (max_retries : Nat)
  | fatal (e : PyError)
  | maxRetriesExceeded (max_retries : Nat)
deriving Repr, DecidableEq

/-- Status classified as rate limit by the source:
`error.resp.status in [403, 429]`. -/
def retryableRate (s : Nat) : Bool := s == 403 || s == 429

/-- Status classified as transient server error by the source:
`error.resp.status in [500, 502, 503, 504]`. -/
def retryableServer (s : Nat) : Bool :=
  s == 500 || s == 502 || s == 503 || s == 504

/-- The `while retry_count < max_retries` loop of
`exponential_backoff_retry` (`drive_client.py`, lines 145-177),
expressed by recursion on `remaining = max_retries - retry_count`.
The loop body runs while `remaining > 0`; after incrementing
`retry_count` the source checks `retry_count >= max_retries`, which is
`remaining = 1` here, i.e. the `r = 0` test under the `r+1` pattern.
The attempt counter records how many times `func()` was invoked; the
backoff sleeps have no effect on the observable outcome and are elided.
`f` maps the attempt number to the result of that invocation. -/
def retryAux {α : Type} (f : Nat → Except PyError α) (max_retries : Nat) :
    Nat → Nat → RetryOutcome α × Nat
  | 0, attempts => (.maxRetriesExceeded max_retries, attempts)
  | r + 1, attempts =>
    match f attempts with
    | .ok a => (.ok a, attempts + 1)
    | .error (.httpError s) =>
      if retryableRate s then
        if r = 0 then (.rateLimitExhausted max_retries, attempts + 1)
        else retryAux f max_retries r (attempts + 1)
      else if retryableServer s then
        if r = 0 then (.serverErrorExhausted max_retries, attempts + 1)
        else retryAux f max_retries r (attempts + 1)
      else (.fatal (.httpError s), attempts + 1)
    | .error (.other m) => (.fatal (.other m), attempts + 1)

/-- `DriveClient.exponential_backoff_retry` from `drive_client.py`:
returns the outcome together with the number of attempts made. -/
def exponential_backoff_retry {α : Type} (f : Nat → Except PyError α)
    (max_retries : Nat := 5) : RetryOutcome α × Nat :=
  retryAux f max_retries max_retries 0

/-- The two distinguished retries-exhausted raises of the source
(rate limit after `max_retries` retries, server error after
`max_retries` retries). -/
def isExhausted {α : Type} : RetryOutcome α → Bool
  | .rateLimitExhausted _ => true
  | .serverErrorExhausted _ => true
  | _ => false

/- ===================== Data model (app.py / storage.py) ===================== -/

/-- A ready video asset as consumed by the run loop (`valid_videos`
records in `app.py`): store id, display name, local file path, duration
in seconds. -/
structure Video where
  id : Nat
  name : String
  file_path : String
  duration : ℚ
deriving Repr, DecidableEq

/-- A CUJ record: user-assigned string id, task name, expectation
text. -/
structure Cuj where
  id : String
  task : String
  expectation : String
deriving Repr, DecidableEq

/-- The structured verdict dictionary returned by the AI analysis call
(`analysis` in `app.py`).  `recommendation`, `confidence_score` and
`key_moments` may be missing from the dictionary (`analysis.get`), hence
`Option`; `key_moments` is modelled after its conversion to a JSON
string. -/
structure Verdict where
  status : String
  friction_score : Int
  observation : String
  recommendation : Option String
  confidence_score : Option Int
  key_moments : Option String
deriving Repr, DecidableEq

/-- One row of the `analysis_results` SQLite table (`storage.py`,
schema lines 87-110). -/
structure ResultRow where
  id : Nat
  cuj_id : String
  video_id : Nat
  model_used : String
  status : String
  friction_score : Int
  confidence_score : Option Int
  observation : String
  recommendation : String
  key_moments : Option String
  cost : ℚ
  raw_response : String
  human_verified : Bool
  human_override_status : Option String
  human_override_friction : Option Int
  human_notes : Option String
  analyzed_at : Nat
  verified_at : Option Nat
deriving Repr, DecidableEq

/-- `DatabaseManager.save_analysis` from `storage.py`, lines 546-570:
inserts a row and returns its id, or catches any database error and
returns `-1` leaving the table unchanged.  Whether the write succeeds
is exogenous, supplied as `ok`.  Result: (returned id, new table, new
autoincrement counter). -/
def save_analysis (store : List ResultRow) (next_id : Nat) (ok : Bool)
    (cuj_id : String) (video_id : Nat) (model_used status : String)
    (friction_score : Int) (observation recommendation : String)
    (cost : ℚ) (raw_response : String) (confidence_score : Option Int)
    (key_moments : Option String) (analyzed_at : Nat) :
    Int × List ResultRow × Nat :=
  if ok then
    (next_id,
     store ++ [{ id := next_id, cuj_id := cuj_id, video_id := video_id,
                 model_used := model_used, status := status,
                 friction_score := friction_score,
                 confidence_score := confidence_score,
                 observation := observation,
                 recommendation := recommendation,
                 key_moments := key_moments, cost := cost,
                 raw_response := raw_response, human_verified := false,
                 human_override_status := none,
                 human_override_friction := none, human_notes := none,
                 analyzed_at := analyzed_at, verified_at := none }],
     next_id + 1)
  else (-1, store, next_id)

/- ===================== Assignment Resolver (app.py) ===================== -/

/-- The per-CUJ asset resolution of the run loop (`app.py`, lines
1278-1284): if a manual mapping entry exists for the CUJ id, use the
first ready video with the mapped id, falling back to round robin
(`videos[i % len(videos)]`) when no ready video carries that id;
otherwise round robin by CUJ position.  The caller guarantees a
non-empty video list, so the `getD` default is unreachable. -/
def assignVideo (videos : List Video) (mapping : List (String × Nat))
    (i : Nat) (cuj : Cuj) : Video :=
  let fallback := videos.getD (i % videos.length) ⟨0, "", "", 0⟩
  match mapping.lookup cuj.id with
  | some vid =>
    match videos.find? (fun v => v.id == vid) with
    | some v => v
    | none => fallback
  | none => fallback

/- ===================== Run Controller (app.py) ===================== -/

/-- Result of one invocation of
`client.analyze_video_with_retry` inside the run loop: a structured
verdict, a falsy result (`if analysis:` not taken), a `GeminiAPIError`,
or any other exception. -/
inductive InvocationResult where
  | verdict (a : Verdict)
  | noneResult
  | apiError (msg : String)
  | unexpectedError (msg : String)
deriving Repr, DecidableEq

/-- The external collaborators of one run: file-system existence check
for a path, the guarded AI invocation per (CUJ, video) pair, whether the
result store write succeeds for a CUJ id, the JSON serialisation of a
verdict, and the wall-clock stamp used for `analyzed_at`. -/
structure RunEnv where
  fileExists : String → Bool
  invoke : Cuj → Video → InvocationResult
  saveOk : String → Bool
  serialize : Verdict → String
  now : Nat

/-- The mutable state of one run: the aggregate counters and error list
of the loop in `app.py` (lines 1270-1273) together with the result
store table and its autoincrement counter. -/
structure RunState where
  total_cost : ℚ
  successes : Nat
  failures : Nat
  errors_list : List String
  store : List ResultRow
  next_id : Nat
deriving Repr, DecidableEq

/-- One iteration of the `for i, cuj in enumerate(cujs)` loop of
`app.py` (lines 1275-1400): resolve the video, re-check the file
exists (recording a failure and continuing when missing), invoke the
AI, and on a verdict accumulate cost, call `save_analysis` — whose
return value the source ignores — and count a success; on
`GeminiAPIError` or any other exception record the failure message and
continue. -/
def runStep (env : RunEnv) (model : String) (videos : List Video)
    (mapping : List (String × Nat)) (i : Nat) (cuj : Cuj)
    (st : RunState) : RunState :=
  let video := assignVideo videos mapping i cuj
  if env.fileExists video.file_path = false then
    { st with failures := st.failures + 1,
              errors_list := st.errors_list ++
                [cuj.task ++ ": Video file not found: " ++ video.file_path] }
  else
    match env.invoke cuj video with
    | .noneResult => st
    | .verdict a =>
      let cost_info := estimate_cost video.duration model
      let saved := save_analysis st.store st.next_id (env.saveOk cuj.id)
        cuj.id video.id model a.status a.friction_score a.observation
        (a.recommendation.getD "") cost_info.total_cost (env.serialize a)
        a.confidence_score a.key_moments env.now
      { st with total_cost := st.total_cost + cost_info.total_cost,
                successes := st.successes + 1,
                store := saved.2.1,
                next_id := saved.2.2 }
    | .apiError msg =>
      { st with failures := st.failures + 1,
                errors_list := st.errors_list ++ [cuj.task ++ ": " ++ msg] }
    | .unexpectedError msg =>
      { st with failures := st.failures + 1,
                errors_list := st.errors_list ++
                  [cuj.task ++ ": Unexpected error: " ++ msg] }

/-- The run loop folded over the CUJ list with its position counter. -/
def runGo (env : RunEnv) (model : String) (videos : List Video)
    (mapping : List (String × Nat)) :
    Nat → RunState → List Cuj → RunState
  | _, st, [] => st
  | i, st, c :: cs =>
    runGo env model videos mapping (i + 1)
      (runStep env model videos mapping i c st) cs

/-- A full Run Analysis pass (`app.py`, lines 1270-1412): counters start
at zero and the loop visits every CUJ in order.  `store0` and
`next_id0` are the result table and autoincrement counter at run
start. -/
def runAnalysis (env : RunEnv) (model : String) (videos : List Video)
    (mapping : List (String × Nat)) (cujs : List Cuj)
    (store0 : List ResultRow) (next_id0 : Nat) : RunState :=
  runGo env model videos mapping 0
    ⟨0, 0, 0, [], store0, next_id0⟩ cujs

/-- Classification of what one loop iteration does to the counters. -/
inductive StepClass where
  | succeeded
  | failed
  | skipped
deriving Repr, DecidableEq

/-- The class of the iteration for CUJ `cuj` at position `i`: `failed`
when the assigned file is missing or the invocation raises, `succeeded`
on a verdict, `skipped` when the invocation returns a falsy result. -/
def stepClass (env : RunEnv) (videos : List Video)
    (mapping : List (String × Nat)) (i : Nat) (cuj : Cuj) : StepClass :=
  let video := assignVideo videos mapping i cuj
  if env.fileExists video.file_path = false then .failed
  else
    match env.invoke cuj video with
    | .verdict _ => .succeeded
    | .noneResult => .skipped
    | .apiError _ => .failed
    | .unexpectedError _ => .failed

/- ===================== Verification Overlay (app.py) ===================== -/

/-- `effective_status = res.get('human_override_status') or res['status']`
(`app.py`, line 1627).  Python `or` falls through on falsy values, so a
present empty-string override would also fall back to the AI status. -/
def effective_status (override : Option String) (ai_status : String) :
    String :=
  match override with
  | some s => if s = "" then ai_status else s
  | none => ai_status

/-- `effective_friction = res.get('human_override_friction') or
res['friction_score']` (`app.py`, line 1628).  Python `or` falls
through on falsy values, so a present zero override would also fall
back to the AI friction score. -/
def effective_friction (override : Option Int) (ai_friction : Int) : Int :=
  match override with
  | some f => if f = 0 then ai_friction else f
  | none => ai_friction

/-- The state of the `confidence_score` entry of a result dictionary:
the key can be missing entirely (a fresh in-session verdict without the
field), present with Python `None` (a database row whose
`confidence_score` column is NULL, i.e. an older record), or present
with an integer. -/
inductive ConfField where
  | absent
  | pyNone
  | score (n : Int)
deriving Repr, DecidableEq

/-- `res.get('confidence_score', 5)` (`app.py`, line 1632): the default
5 applies only when the key is missing; a key present with `None`
yields `None` (here `none`). -/
def get_confidence_default5 : ConfField → Option Int
  | .absent => some 5
  | .pyNone => none
  | .score n => some n

/-- The confidence-based review flag of the results dashboard
(`app.py`, lines 1631-1642): `some true` when the card is flagged
REVIEW NEEDED, `some false` when not; `none` when the comparison
`confidence_score >= 4` raises a `TypeError` because the retrieved
value is Python `None`. -/
def review_needed (c : ConfField) : Option Bool :=
  match get_confidence_default5 c with
  | none => none
  | some n =>
    if 4 ≤ n then some false
    else if n = 3 then some false
    else some true

/- ===================== Result Store (storage.py) ===================== -/

/-- One row of the `cujs` table (`storage.py`, schema lines 53-63). -/
structure CujRow where
  id : String
  user_id : Nat
  task : String
  expectation : String
deriving Repr, DecidableEq

/-- The tables of the SQLite store that the verified claims touch. -/
structure DB where
  cujs : List CujRow
  videos : List Video
  results : List ResultRow
deriving Repr, DecidableEq

/-- The row update performed by the `UPDATE analysis_results SET ...
WHERE id = ?` statement of `verify_analysis` (`storage.py`, lines
708-716): the three override columns are set to exactly the bound
parameters, the row is stamped verified with a timestamp, and every
other column keeps its value. -/
def updVerifyRow (r : ResultRow) (override_status : Option String)
    (override_friction : Option Int) (notes : String) (now : Nat) :
    ResultRow :=
  { r with human_verified := true,
           human_override_status := override_status,
           human_override_friction := override_friction,
           human_notes := some notes,
           verified_at := some now }

/-- `DatabaseManager.verify_analysis` from `storage.py`, lines 690-723:
on success applies the update to every row whose id matches (ids are
unique in practice) and returns `True`; on a database error (`ok =
false`, the except branch) returns `False` leaving the store
unchanged. -/
def verify_analysis (db : DB) (ok : Bool) (analysis_id : Nat)
    (override_status : Option String) (override_friction : Option Int)
    (notes : String) (now : Nat) : Bool × DB :=
  if ok then
    (true,
     { db with results := db.results.map (fun r =>
         if r.id = analysis_id then
           updVerifyRow r override_status override_friction notes now
         else r) })
  else (false, db)

/-- The reviewer status selectbox of the verification form (`app.py`,
line 1727): `Keep AI` or one of `Pass`/`Fail`/`Partial`. -/
inductive StatusChoice where
  | keepAI
  | chosen (s : String)
deriving Repr, DecidableEq

/-- The reviewer friction selectbox of the verification form (`app.py`,
line 1734): `Keep AI` or one of the integers 1-5. -/
inductive FrictionChoice where
  | keepAI
  | chosen (n : Int)
deriving Repr, DecidableEq

/-- The verification form submit handler (`app.py`, lines 1749-1761):
`final_status = None if override_status == "Keep AI" else
override_status`, likewise for friction, then
`db.verify_analysis(analysis_id, override_status=final_status,
override_friction=final_friction, notes=notes)`. -/
def submit_verification (db : DB) (ok : Bool) (analysis_id : Nat)
    (sc : StatusChoice) (fc : FrictionChoice) (notes : String)
    (now : Nat) : Bool × DB :=
  let final_status := match sc with
    | .keepAI => none
    | .chosen s => some s
  let final_friction := match fc with
    | .keepAI => none
    | .chosen n => some n
  verify_analysis db ok analysis_id final_status final_friction notes now

/-- SQL `MAX` over a group of ids (`SELECT MAX(ar2.id) ... GROUP BY
ar2.cuj_id`): `none` on an empty group. -/
def natMax? : List Nat → Option Nat
  | [] => none
  | x :: xs =>
    match natMax? xs with
    | none => some x
    | some m => some (Nat.max x m)

/-- The `JOIN cujs c2 ... WHERE c2.user_id = ?` condition of
`get_latest_results`: the CUJ id belongs to a CUJ row of this user. -/
def cujOwned (db : DB) (user_id : Nat) (cid : String) : Bool :=
  db.cujs.any (fun c => c.id == cid && c.user_id == user_id)

/-- The ids of the analysis rows in the `GROUP BY ar2.cuj_id` group of
`cid` for this user (inner subquery of `get_latest_results`,
`storage.py` lines 640-644). -/
def userGroupIds (db : DB) (user_id : Nat) (cid : String) : List Nat :=
  (db.results.filter
    (fun r => r.cuj_id == cid && cujOwned db user_id cid)).map
    (fun r => r.id)

/-- `MAX(ar2.id)` of the group of `cid`. -/
def maxIdFor (db : DB) (user_id : Nat) (cid : String) : Option Nat :=
  natMax? (userGroupIds db user_id cid)

/-- The id set produced by the subquery of `get_latest_results`: one
`MAX(id)` per CUJ id having at least one joined row. -/
def maxIds (db : DB) (user_id : Nat) : List Nat :=
  ((db.results.map (fun r => r.cuj_id)).dedup).filterMap
    (maxIdFor db user_id)

/-- The `JOIN videos v ON ar.video_id = v.id` lookup. -/
def videoFor (db : DB) (vid : Nat) : Option Video :=
  db.videos.find? (fun v => v.id == vid)

/-- The rows selected by the outer query of `get_latest_results`
(`storage.py`, lines 617-646): owned by the user, joined to an existing
video row, and carrying an id from the `MAX(id)` subquery. -/
def selectedRows (db : DB) (user_id : Nat) : List ResultRow :=
  db.results.filter (fun r =>
    cujOwned db user_id r.cuj_id &&
    (videoFor db r.video_id).isSome &&
    decide (r.id ∈ maxIds db user_id))

/-- One value of the dictionary returned by `get_latest_results`
(`storage.py`, lines 650-667). -/
structure ResultView where
  analysis_id : Nat
  video_used : String
  video_id : Nat
  video_path : String
  model_used : String
  status : String
  friction_score : Int
  confidence_score : Option Int
  observation : String
  recommendation : String
  key_moments : Option String
  cost : ℚ
  human_verified : Bool
  human_override_status : Option String
  human_override_friction : Option Int
  human_notes : Option String
deriving Repr, DecidableEq

/-- The dictionary value built from a selected row; the joined video
row exists for every selected row, so the `getD` default is
unreachable. -/
def mkView (db : DB) (r : ResultRow) : ResultView :=
  let v := (videoFor db r.video_id).getD ⟨0, "", "", 0⟩
  { analysis_id := r.id, video_used := v.name, video_id := r.video_id,
    video_path := v.file_path, model_used := r.model_used,
    status := r.status, friction_score := r.friction_score,
    confidence_score := r.confidence_score, observation := r.observation,
    recommendation := r.recommendation, key_moments := r.key_moments,
    cost := r.cost, human_verified := r.human_verified,
    human_override_status := r.human_override_status,
    human_override_friction := r.human_override_friction,
    human_notes := r.human_notes }

/-- `results[row['cuj_id']] = {...}`: Python dictionary insertion —
replace the value when the key is present, append otherwise. -/
def dictInsert (d : List (String × ResultView)) (k : String)
    (v : ResultView) : List (String × ResultView) :=
  if d.any (fun q => q.1 == k) then
    d.map (fun q => if q.1 == k then (k, v) else q)
  else d ++ [(k, v)]

/-- `DatabaseManager.get_latest_results` from `storage.py`, lines
611-670: a read-only query building a dictionary keyed by CUJ id from
the selected rows; the store itself is returned unchanged (second
component) — no row is deleted. -/
def get_latest_results (db : DB) (user_id : Nat) :
    List (String × ResultView) × DB :=
  ((selectedRows db user_id).foldl
    (fun acc r => dictInsert acc r.cuj_id (mkView db r)) [], db)

/- ===================== concrete fixtures for witnesses ===================== -/

/-- Fixture environment for C1: the file `a.mp4` has been deleted, the
file `b.mp4` exists, every invocation yields a verdict, every store
write succeeds. -/
def c1Env : RunEnv :=
  ⟨fun s => s == "b.mp4",
   fun _ _ => .verdict ⟨"Pass", 2, "ok", none, some 5, none⟩,
   fun _ => true, fun _ => "", 0⟩

/-- Fixture ready-asset list for C1. -/
def c1Videos : List Video := [⟨1, "v0", "a.mp4", 10⟩, ⟨2, "v1", "b.mp4", 10⟩]

/-- Fixture CUJ list for C1. -/
def c1Cujs : List Cuj := [⟨"CUJ-001", "t1", "e1"⟩, ⟨"CUJ-002", "t2", "e2"⟩]

/-- Fixture environment for C2: the remote call succeeds with a verdict
but every result-store write fails (`save_analysis` returns -1). -/
def c2Env : RunEnv :=
  ⟨fun _ => true,
   fun _ _ => .verdict ⟨"Pass", 1, "obs", none, some 5, none⟩,
   fun _ => false, fun _ => "", 0⟩

/-- Fixture asset 0 for the C6 round-robin scenario. -/
def c6Video0 : Video := ⟨10, "asset0", "a0.mp4", 5⟩

/-- Fixture asset 1 for the C6 round-robin scenario. -/
def c6Video1 : Video := ⟨11, "asset1", "a1.mp4", 5⟩

/-- The two ready assets of the C6 scenario. -/
def c6Videos : List Video := [c6Video0, c6Video1]

/-- The three CUJs of the C6 scenario. -/
def c6Cuj0 : Cuj := ⟨"CUJ-0", "t0", "e0"⟩

/-- Second CUJ of the C6 scenario. -/
def c6Cuj1 : Cuj := ⟨"CUJ-1", "t1", "e1"⟩

/-- Third CUJ of the C6 scenario. -/
def c6Cuj2 : Cuj := ⟨"CUJ-2", "t2", "e2"⟩

/-- Manual mapping of the C6 scenario: the third CUJ is mapped to
asset 1. -/
def c6Map : List (String × Nat) := [("CUJ-2", 11)]

/-- Fixture store for C8: one user (7) owning CUJ `A`, one video, two
analysis rows for `A` with ids 1 and 2. -/
def c8DB : DB :=
  ⟨[⟨"A", 7, "t", "e"⟩], [⟨1, "v", "p.mp4", 10⟩],
   [⟨1, "A", 1, "m", "Pass", 1, none, "o1", "r1", none, 0, "", false,
     none, none, none, 0, none⟩,
    ⟨2, "A", 1, "m", "Fail", 3, none, "o2", "r2", none, 0, "", false,
     none, none, none, 0, none⟩]⟩

/-- Fixture unverified analysis row for C9. -/
def c9Row : ResultRow :=
  ⟨1, "CUJ-001", 1, "gemini-2.5-pro", "Fail", 4, some 2, "obs", "rec",
   none, 0, "", false, none, none, none, 0, none⟩

/-- Fixture store for C9. -/
def c9DB : DB :=
  ⟨[⟨"CUJ-001", 7, "t", "e"⟩], [⟨1, "v", "p.mp4", 10⟩], [c9Row]⟩

/-- Fixture row for C10 carrying previously stored overrides, to show
that a later verification passing `None` clears them. -/
def c10Row : ResultRow :=
  ⟨5, "CUJ-X", 2, "m", "Pass", 1, none, "o", "r", none, 0, "", true,
   some "Fail", some 4, some "old", 3, some 7⟩

/-- Fixture store for C10. -/
def c10DB : DB := ⟨[], [], [c10Row]⟩

/- ===================== helper lemmas ===================== -/

theorem pyInt_natCast (n : ℕ) : pyInt (n : ℚ) = n := by
  unfold pyInt
  rw [Rat.num_natCast, Rat.den_natCast]
  simp [Int.tdiv]

theorem retryAux_all_retryable {α : Type} (f : Nat → Except PyError α)
    (max_retries : Nat)
    (hf : ∀ k, ∃ s, f k = .error (.httpError s) ∧
      (retryableRate s || retryableServer s) = true) :
    ∀ r a, 1 ≤ r →
      (retryAux f max_retries r a).2 = a + r ∧
      isExhausted (retryAux f max_retries r a).1 = true := by
  intro r
  induction r with
  | zero => intro a h; omega
  | succ r ih =>
    intro a _
    obtain ⟨s, hs, hret⟩ := hf a
    rcases Bool.or_eq_true _ _ |>.mp hret with hrate | hserver
    · by_cases hr : r = 0
      · subst hr
        simp [retryAux, hs, hrate, isExhausted]
      · have h1 : 1 ≤ r := Nat.one_le_iff_ne_zero.mpr hr
        have := ih (a + 1) h1
        simp only [retryAux, hs, hrate, if_pos, if_neg hr]
        constructor
        · rw [this.1]; omega
        · exact this.2
    · have hs4 : s = 500 ∨ s = 502 ∨ s = 503 ∨ s = 504 := by
        simpa [retryableServer, beq_iff_eq, or_assoc] using hserver
      have hnr : retryableRate s = false := by
        rcases hs4 with rfl | rfl | rfl | rfl <;> decide
      by_cases hr : r = 0
      · subst hr
        simp [retryAux, hs, hnr, hserver, isExhausted]
      · have h1 : 1 ≤ r := Nat.one_le_iff_ne_zero.mpr hr
        have := ih (a + 1) h1
        simp only [retryAux, hs, hnr, hserver, Bool.false_eq_true,
          if_false, if_pos, if_neg hr]
        constructor
        · rw [this.1]; omega
        · exact this.2

/- ===================== C3 ===================== -/

/-- C3: if every attempt raises a retryable error (HTTP 403/429 or
500/502/503/504), `exponential_backoff_retry` makes exactly
`max_retries` attempts and then raises one of the distinguished
retries-exhausted `DriveAPIError`s; if the first attempt raises any
other error, exactly one attempt is made and the error is propagated
immediately as fatal. -/
theorem c3_retry_bound {α : Type} (f g : Nat → Except PyError α)
    (max_retries : Nat) (e : PyError)
    (hm : 1 ≤ max_retries)
    (hf : ∀ k, ∃ s, f k = .error (.httpError s) ∧
      (retryableRate s || retryableServer s) = true)
    (hg : g 0 = .error e)
    (hfatal : ∀ s, e = .httpError s →
      retryableRate s = false ∧ retryableServer s = false) :
    (exponential_backoff_retry f max_retries).2 = max_retries ∧
    isExhausted (exponential_backoff_retry f max_retries).1 = true ∧
    exponential_backoff_retry g max_retries = (.fatal e, 1) := by
  have hmain := retryAux_all_retryable f max_retries hf max_retries 0 hm
  refine ⟨by rw [exponential_backoff_retry, hmain.1]; omega, hmain.2, ?_⟩
  obtain ⟨r, rfl⟩ : ∃ r, max_retries = r + 1 :=
    ⟨max_retries - 1, by omega⟩
  cases e with
  | httpError s =>
    obtain ⟨h1, h2⟩ := hfatal s rfl
    simp [exponential_backoff_retry, retryAux, hg, h1, h2]
  | other m =>
    simp [exponential_backoff_retry, retryAux, hg]

/-- Witness for C3 at `max_retries = 3`: an always-rate-limited call
makes exactly 3 attempts and exhausts; a call failing with a
non-HTTP error is attempted once and propagated. -/
theorem c3_retry_bound_witness :
    (exponential_backoff_retry
      (fun _ => (Except.error (PyError.httpError 429) : Except PyError Nat)) 3).2 = 3 ∧
    isExhausted (exponential_backoff_retry
      (fun _ => (Except.error (PyError.httpError 429) : Except PyError Nat)) 3).1 = true ∧
    exponential_backoff_retry
      (fun _ => (Except.error (PyError.other "boom") : Except PyError Nat)) 3 =
      (.fatal (.other "boom"), 1) :=
  c3_retry_bound
    (fun _ => (Except.error (PyError.httpError 429) : Except PyError Nat))
    (fun _ => (Except.error (PyError.other "boom") : Except PyError Nat))
    3 (.other "boom") (by decide)
    (fun k => ⟨429, rfl, by decide⟩) rfl
    (fun s h => by cases h)

/- ===================== C7 ===================== -/

/-- C7: for every duration and model, `estimate_cost` prices the call by
the formula of the spec — input tokens are
`duration * (video_rate + audio_rate) + prompt_overhead` (with
283 tokens per second combined and overhead 1000), output tokens are
the constant 500, and the costs apply the model input/output rates per
million tokens; at 300 seconds on a model priced 0.10/0.40 per million
tokens the input token count is 85900 and the costs match the formula
exactly. -/
theorem c7_cost_model :
    (∀ (d : ℚ) (m : String),
      (estimate_cost d m).output_tokens = 500 ∧
      (estimate_cost d m).input_cost =
        ((d * (258 + 25) + 1000) / 1000000) *
          (get_model_info m).cost_per_m_tokens_input ∧
      (estimate_cost d m).output_cost =
        (500 / 1000000) * (get_model_info m).cost_per_m_tokens_output ∧
      (estimate_cost d m).total_cost =
        (estimate_cost d m).input_cost + (estimate_cost d m).output_cost) ∧
    (∀ (n : ℕ) (m : String),
      (estimate_cost (n : ℚ) m).input_tokens = 283 * n + 1000) ∧
    (estimate_cost 300 "gemini-2.0-flash").input_tokens = 85900 ∧
    (estimate_cost 300 "gemini-2.0-flash").input_cost = 859 / 100000 ∧
    (estimate_cost 300 "gemini-2.0-flash").output_cost = 1 / 5000 ∧
    (estimate_cost 300 "gemini-2.0-flash").total_cost = 879 / 100000 := by
  have hm : get_model_info "gemini-2.0-flash" =
      ⟨"Gemini 2.0 Flash (Stable)", 0.10, 0.40, true⟩ := by rfl
  have htok : (300 : ℚ) *
      (TOKENS_PER_VIDEO_SECOND + TOKENS_PER_AUDIO_SECOND) +
      AVERAGE_PROMPT_TOKENS = ((85900 : ℕ) : ℚ) := by
    norm_num [TOKENS_PER_VIDEO_SECOND, TOKENS_PER_AUDIO_SECOND,
      AVERAGE_PROMPT_TOKENS]
  have hin : (estimate_cost 300 "gemini-2.0-flash").input_cost =
      859 / 100000 := by
    show ((300 : ℚ) *
      (TOKENS_PER_VIDEO_SECOND + TOKENS_PER_AUDIO_SECOND) +
      AVERAGE_PROMPT_TOKENS) / 1000000 *
      (get_model_info "gemini-2.0-flash").cost_per_m_tokens_input =
      859 / 100000
    rw [htok, hm]
    norm_num
  have hout : (estimate_cost 300 "gemini-2.0-flash").output_cost =
      1 / 5000 := by
    show AVERAGE_RESPONSE_TOKENS / 1000000 *
      (get_model_info "gemini-2.0-flash").cost_per_m_tokens_output =
      1 / 5000
    rw [hm]
    norm_num [AVERAGE_RESPONSE_TOKENS]
  have htot : (estimate_cost 300 "gemini-2.0-flash").total_cost =
      879 / 100000 := by
    show (estimate_cost 300 "gemini-2.0-flash").input_cost +
      (estimate_cost 300 "gemini-2.0-flash").output_cost = 879 / 100000
    rw [hin, hout]
    norm_num
  have hintok : (estimate_cost 300 "gemini-2.0-flash").input_tokens =
      85900 := by
    show pyInt ((300 : ℚ) *
      (TOKENS_PER_VIDEO_SECOND + TOKENS_PER_AUDIO_SECOND) +
      AVERAGE_PROMPT_TOKENS) = 85900
    rw [htok, pyInt_natCast]
    norm_num
  refine ⟨?_, ?_, hintok, hin, hout, htot⟩
  · intro d m
    refine ⟨rfl, ?_, rfl, rfl⟩
    show (d * (TOKENS_PER_VIDEO_SECOND + TOKENS_PER_AUDIO_SECOND) +
        AVERAGE_PROMPT_TOKENS) / 1000000 *
        (get_model_info m).cost_per_m_tokens_input = _
    norm_num [TOKENS_PER_VIDEO_SECOND, TOKENS_PER_AUDIO_SECOND,
      AVERAGE_PROMPT_TOKENS]
  · intro n m
    show pyInt ((n : ℚ) * (TOKENS_PER_VIDEO_SECOND + TOKENS_PER_AUDIO_SECOND)
      + AVERAGE_PROMPT_TOKENS) = _
    have hcast : (n : ℚ) * (TOKENS_PER_VIDEO_SECOND + TOKENS_PER_AUDIO_SECOND)
        + AVERAGE_PROMPT_TOKENS = ((283 * n + 1000 : ℕ) : ℚ) := by
      unfold TOKENS_PER_VIDEO_SECOND TOKENS_PER_AUDIO_SECOND
        AVERAGE_PROMPT_TOKENS
      push_cast
      ring
    rw [hcast, pyInt_natCast]
    push_cast
    ring

theorem runStep_cases (env : RunEnv) (model : String)
    (videos : List Video) (mapping : List (String × Nat)) (i : Nat)
    (c : Cuj) (st : RunState) :
    (stepClass env videos mapping i c = .succeeded ∧
      (runStep env model videos mapping i c st).successes = st.successes + 1 ∧
      (runStep env model videos mapping i c st).failures = st.failures ∧
      (runStep env model videos mapping i c st).errors_list = st.errors_list) ∨
    (stepClass env videos mapping i c = .failed ∧
      (runStep env model videos mapping i c st).successes = st.successes ∧
      (runStep env model videos mapping i c st).failures = st.failures + 1 ∧
      ∃ m, (runStep env model videos mapping i c st).errors_list =
        st.errors_list ++ [m]) ∨
    (stepClass env videos mapping i c = .skipped ∧
      runStep env model videos mapping i c st = st) := by
  cases hfe : env.fileExists (assignVideo videos mapping i c).file_path with
  | false =>
    right; left
    refine ⟨by simp [stepClass, hfe], ?_, ?_, ?_⟩ <;>
      simp [runStep, hfe]
  | true =>
    cases hinv : env.invoke c (assignVideo videos mapping i c) with
    | verdict a =>
      left
      refine ⟨by simp [stepClass, hfe, hinv], ?_, ?_, ?_⟩ <;>
        simp [runStep, hfe, hinv]
    | noneResult =>
      right; right
      exact ⟨by simp [stepClass, hfe, hinv], by simp [runStep, hfe, hinv]⟩
    | apiError m =>
      right; left
      refine ⟨by simp [stepClass, hfe, hinv], ?_, ?_, ?_⟩ <;>
        simp [runStep, hfe, hinv]
    | unexpectedError m =>
      right; left
      refine ⟨by simp [stepClass, hfe, hinv], ?_, ?_, ?_⟩ <;>
        simp [runStep, hfe, hinv]

theorem runGo_counts (env : RunEnv) (model : String)
    (videos : List Video) (mapping : List (String × Nat)) :
    ∀ (cs : List Cuj) (i : Nat) (st : RunState),
      (runGo env model videos mapping i st cs).successes =
        st.successes + ((cs.enumFrom i).countP
          (fun p => stepClass env videos mapping p.1 p.2 == .succeeded)) ∧
      (runGo env model videos mapping i st cs).failures =
        st.failures + ((cs.enumFrom i).countP
          (fun p => stepClass env videos mapping p.1 p.2 == .failed)) ∧
      (runGo env model videos mapping i st cs).errors_list.length =
        st.errors_list.length + ((cs.enumFrom i).countP
          (fun p => stepClass env videos mapping p.1 p.2 == .failed)) := by
  intro cs
  induction cs with
  | nil => intro i st; simp [runGo, List.enumFrom]
  | cons c cs ih =>
    intro i st
    have hrec := ih (i + 1) (runStep env model videos mapping i c st)
    have hgo : runGo env model videos mapping i st (c :: cs) =
        runGo env model videos mapping (i + 1)
          (runStep env model videos mapping i c st) cs := rfl
    rcases runStep_cases env model videos mapping i c st with
      ⟨hcl, h1, h2, h3⟩ | ⟨hcl, h1, h2, h3⟩ | ⟨hcl, heq⟩
    · refine ⟨?_, ?_, ?_⟩
      · rw [hgo, hrec.1, h1]
        simp only [List.enumFrom, List.countP_cons, hcl]
        simp
        try omega
      · rw [hgo, hrec.2.1, h2]
        simp only [List.enumFrom, List.countP_cons, hcl]
        simp
        try omega
      · rw [hgo, hrec.2.2, h3]
        simp only [List.enumFrom, List.countP_cons, hcl]
        simp
        try omega
    · obtain ⟨m, hm⟩ := h3
      refine ⟨?_, ?_, ?_⟩
      · rw [hgo, hrec.1, h1]
        simp only [List.enumFrom, List.countP_cons, hcl]
        simp
        try omega
      · rw [hgo, hrec.2.1, h2]
        simp only [List.enumFrom, List.countP_cons, hcl]
        simp
        try omega
      · rw [hgo, hrec.2.2, hm]
        simp only [List.enumFrom, List.countP_cons, hcl,
          List.length_append, List.length_cons, List.length_nil]
        simp
        omega
    · rw [heq] at hrec
      refine ⟨?_, ?_, ?_⟩
      · rw [hgo, heq, hrec.1]
        simp only [List.enumFrom, List.countP_cons, hcl]
        simp
        try omega
      · rw [hgo, heq, hrec.2.1]
        simp only [List.enumFrom, List.countP_cons, hcl]
        simp
        try omega
      · rw [hgo, heq, hrec.2.2]
        simp only [List.enumFrom, List.countP_cons, hcl]
        simp
        try omega

theorem countP_succ_failed {α : Type} (f : α → StepClass) (l : List α)
    (h : ∀ x ∈ l, f x ≠ .skipped) :
    l.countP (fun x => f x == .succeeded) +
      l.countP (fun x => f x == .failed) = l.length := by
  induction l with
  | nil => simp
  | cons a l ih =>
    have ha := h a (List.mem_cons_self a l)
    have hrest : ∀ x ∈ l, f x ≠ .skipped :=
      fun x hx => h x (List.mem_cons_of_mem a hx)
    have hl := ih hrest
    cases hf : f a with
    | succeeded =>
      simp only [List.countP_cons, hf]
      simp
      omega
    | failed =>
      simp only [List.countP_cons, hf]
      simp
      omega
    | skipped => exact absurd hf ha

/- ===================== C1 ===================== -/

/-- C1: over a non-empty CUJ list and a non-empty ready-asset list,
when no invocation returns a falsy verdict, the run completes having
attempted every CUJ: successes and failures partition the CUJ list
(`successes = N - failures`), each failed CUJ — missing asset file or
invocation error — contributes exactly one recorded error message, and
a run containing at least one faulted CUJ reports `failures ≥ 1`. -/
theorem c1_continue_on_failure (env : RunEnv) (model : String)
    (videos : List Video) (mapping : List (String × Nat))
    (cujs : List Cuj) (store0 : List ResultRow) (next_id0 : Nat)
    (hc : cujs ≠ []) (hv : videos ≠ [])
    (hnoskip : ∀ p ∈ cujs.enum,
      stepClass env videos mapping p.1 p.2 ≠ StepClass.skipped)
    (hfail : ∃ p ∈ cujs.enum,
      stepClass env videos mapping p.1 p.2 = StepClass.failed) :
    1 ≤ (runAnalysis env model videos mapping cujs store0 next_id0).failures ∧
    (runAnalysis env model videos mapping cujs store0 next_id0).successes +
      (runAnalysis env model videos mapping cujs store0 next_id0).failures =
      cujs.length ∧
    (runAnalysis env model videos mapping cujs store0 next_id0).successes =
      cujs.length -
        (runAnalysis env model videos mapping cujs store0 next_id0).failures ∧
    (runAnalysis env model videos mapping cujs store0
        next_id0).errors_list.length =
      (runAnalysis env model videos mapping cujs store0 next_id0).failures := by
  have hcnt := runGo_counts env model videos mapping cujs 0
    ⟨0, 0, 0, [], store0, next_id0⟩
  have henum : cujs.enum = cujs.enumFrom 0 := rfl
  have hS : (runAnalysis env model videos mapping cujs store0
      next_id0).successes =
      (cujs.enum).countP
        (fun p => stepClass env videos mapping p.1 p.2 == .succeeded) := by
    rw [henum]
    simpa [runAnalysis] using hcnt.1
  have hF : (runAnalysis env model videos mapping cujs store0
      next_id0).failures =
      (cujs.enum).countP
        (fun p => stepClass env videos mapping p.1 p.2 == .failed) := by
    rw [henum]
    simpa [runAnalysis] using hcnt.2.1
  have hE : (runAnalysis env model videos mapping cujs store0
      next_id0).errors_list.length =
      (cujs.enum).countP
        (fun p => stepClass env videos mapping p.1 p.2 == .failed) := by
    rw [henum]
    simpa [runAnalysis] using hcnt.2.2
  have hone : 0 < (cujs.enum).countP
      (fun p => stepClass env videos mapping p.1 p.2 == .failed) := by
    rw [List.countP_pos_iff]
    obtain ⟨p, hp, hpf⟩ := hfail
    exact ⟨p, hp, by simp [hpf]⟩
  have hsum : (cujs.enum).countP
        (fun p => stepClass env videos mapping p.1 p.2 == .succeeded) +
      (cujs.enum).countP
        (fun p => stepClass env videos mapping p.1 p.2 == .failed) =
      (cujs.enum).length :=
    countP_succ_failed (fun p => stepClass env videos mapping p.1 p.2)
      cujs.enum hnoskip
  have hlen : (cujs.enum).length = cujs.length := by simp
  refine ⟨by omega, by omega, by omega, by rw [hE, hF]⟩

/-- Witness for C1: two CUJs over two ready assets, the first asset
file deleted, the second CUJ succeeding — the run attempts both and
partitions them into successes and failures. -/
theorem c1_continue_on_failure_witness :
    1 ≤ (runAnalysis c1Env "gemini-2.5-pro" c1Videos [] c1Cujs [] 1).failures ∧
    (runAnalysis c1Env "gemini-2.5-pro" c1Videos [] c1Cujs [] 1).successes +
      (runAnalysis c1Env "gemini-2.5-pro" c1Videos [] c1Cujs [] 1).failures =
      c1Cujs.length ∧
    (runAnalysis c1Env "gemini-2.5-pro" c1Videos [] c1Cujs [] 1).successes =
      c1Cujs.length -
        (runAnalysis c1Env "gemini-2.5-pro" c1Videos [] c1Cujs [] 1).failures ∧
    (runAnalysis c1Env "gemini-2.5-pro" c1Videos [] c1Cujs []
        1).errors_list.length =
      (runAnalysis c1Env "gemini-2.5-pro" c1Videos [] c1Cujs [] 1).failures :=
  c1_continue_on_failure c1Env "gemini-2.5-pro" c1Videos [] c1Cujs [] 1
    (by decide) (by decide) (by decide) (by decide)

/- ===================== C2 ===================== -/

/-- C2 (evaluation at the failing input): a one-CUJ run whose remote
call succeeds but whose result-store write fails — `save_analysis`
returns -1 — is still counted as a success by the run loop: the
summary reports one success, zero failures, no error message, and no
row is persisted.  This exhibits the false success the spec forbids:
the source ignores the return value of `save_analysis` (`app.py`,
lines 1356-1380) and increments `successes` unconditionally. -/
theorem c2_false_success_on_persistence_error :
    (runAnalysis c2Env "gemini-2.5-pro" [⟨1, "v0", "a.mp4", 10⟩] []
      [⟨"CUJ-001", "t", "e"⟩] [] 1).successes = 1 ∧
    (runAnalysis c2Env "gemini-2.5-pro" [⟨1, "v0", "a.mp4", 10⟩] []
      [⟨"CUJ-001", "t", "e"⟩] [] 1).failures = 0 ∧
    (runAnalysis c2Env "gemini-2.5-pro" [⟨1, "v0", "a.mp4", 10⟩] []
      [⟨"CUJ-001", "t", "e"⟩] [] 1).errors_list = [] ∧
    (runAnalysis c2Env "gemini-2.5-pro" [⟨1, "v0", "a.mp4", 10⟩] []
      [⟨"CUJ-001", "t", "e"⟩] [] 1).store = [] := by
  refine ⟨rfl, rfl, rfl, rfl⟩

/- ===================== C6 ===================== -/

/-- C6: the CUJ at position `i` receives the first ready asset carrying
its manually mapped id when the mapping entry references an asset
present in the ready list, and the asset at position `i mod count`
otherwise (no mapping entry, or mapped id absent from the ready list);
in the concrete scenario, 3 CUJs over 2 ready assets with no mapping
are assigned `[asset0, asset1, asset0]`, and additionally mapping the
third CUJ to asset1 yields `[asset0, asset1, asset1]`. -/
theorem c6_assignment_resolution (videos : List Video)
    (mapping : List (String × Nat)) (i : Nat) (c : Cuj)
    (hv : videos ≠ []) :
    (mapping.lookup c.id = none →
      assignVideo videos mapping i c =
        videos.getD (i % videos.length) ⟨0, "", "", 0⟩) ∧
    (∀ vid, mapping.lookup c.id = some vid →
      ((∀ v ∈ videos, v.id ≠ vid) →
        assignVideo videos mapping i c =
          videos.getD (i % videos.length) ⟨0, "", "", 0⟩) ∧
      (∀ v, videos.find? (fun w => w.id == vid) = some v →
        assignVideo videos mapping i c = v ∧ v.id = vid)) ∧
    ([assignVideo c6Videos [] 0 c6Cuj0, assignVideo c6Videos [] 1 c6Cuj1,
      assignVideo c6Videos [] 2 c6Cuj2] = [c6Video0, c6Video1, c6Video0]) ∧
    ([assignVideo c6Videos c6Map 0 c6Cuj0,
      assignVideo c6Videos c6Map 1 c6Cuj1,
      assignVideo c6Videos c6Map 2 c6Cuj2] =
      [c6Video0, c6Video1, c6Video1]) := by
  refine ⟨?_, ?_, rfl, rfl⟩
  · intro hnone
    simp [assignVideo, hnone]
  · intro vid hsome
    constructor
    · intro hnov
      have hfind : videos.find? (fun w => w.id == vid) = none := by
        rw [List.find?_eq_none]
        intro v hvmem
        simp [hnov v hvmem]
      simp [assignVideo, hsome, hfind]
    · intro v hfind
      have hid : v.id = vid := by simpa using List.find?_some hfind
      exact ⟨by simp [assignVideo, hsome, hfind], hid⟩

/-- Witness for C6: the mapped scenario assignment, obtained from the
theorem at a concrete input. -/
theorem c6_assignment_resolution_witness :
    [assignVideo c6Videos c6Map 0 c6Cuj0,
     assignVideo c6Videos c6Map 1 c6Cuj1,
     assignVideo c6Videos c6Map 2 c6Cuj2] =
      [c6Video0, c6Video1, c6Video1] :=
  (c6_assignment_resolution c6Videos c6Map 0 c6Cuj0 (by decide)).2.2.2

theorem zip_map_self {α : Type} (f : α → α) (l : List α) :
    ∀ p ∈ l.zip (l.map f), p.2 = f p.1 := by
  induction l with
  | nil => intro p hp; simp at hp
  | cons a l ih =>
    intro p hp
    rw [List.map_cons, List.zip_cons_cons] at hp
    rcases List.mem_cons.mp hp with rfl | hp
    · rfl
    · exact ih p hp

theorem verify_zip_pair (db : DB) (analysis_id : Nat)
    (ost : Option String) (ofr : Option Int) (notes : String)
    (now : Nat) :
    ∀ p ∈ db.results.zip
      (verify_analysis db true analysis_id ost ofr notes now).2.results,
      p.2 = if p.1.id = analysis_id then
        updVerifyRow p.1 ost ofr notes now else p.1 := by
  intro p hp
  have hp2 : p ∈ db.results.zip (db.results.map
      (fun r => if r.id = analysis_id then
        updVerifyRow r ost ofr notes now else r)) := hp
  exact zip_map_self
    (fun r => if r.id = analysis_id then
      updVerifyRow r ost ofr notes now else r) db.results p hp2

/- ===================== C5 ===================== -/

/-- C5: for overrides in their valid ranges (`Pass`/`Fail`/`Partial`
status strings are non-empty, friction overrides are at least 1), the
effective status is the override status when present and the AI status
otherwise, and likewise for friction. -/
theorem c5_override_precedence (override_status : Option String)
    (override_friction : Option Int) (ai_status : String)
    (ai_friction : Int)
    (hs : ∀ s, override_status = some s → s ≠ "")
    (hf : ∀ n, override_friction = some n → 1 ≤ n) :
    effective_status override_status ai_status =
      override_status.getD ai_status ∧
    effective_friction override_friction ai_friction =
      override_friction.getD ai_friction := by
  constructor
  · cases override_status with
    | none => rfl
    | some s => simp [effective_status, hs s rfl]
  · cases override_friction with
    | none => rfl
    | some n =>
      have h1 := hf n rfl
      have hne : n ≠ 0 := by omega
      simp [effective_friction, hne]

/-- Witness for C5: AI status `Fail` with override `Pass` is effective
`Pass`; AI friction 4 with override 2 is effective 2. -/
theorem c5_override_precedence_witness :
    effective_status (some "Pass") "Fail" = (some "Pass").getD "Fail" ∧
    effective_friction (some 2) 4 = (some 2).getD 4 :=
  c5_override_precedence (some "Pass") (some 2) "Fail" 4
    (fun s h => by cases h; decide) (fun n h => by cases h; decide)

/- ===================== C4 ===================== -/

/-- C4: the review flag from confidence — `some false` (no flag) for
confidence ≥ 4 and for confidence = 3, `some true` (flagged) for
confidence ≤ 2, no flag when the `confidence_score` key is missing
(defaulted to 5); but a record whose `confidence_score` column is NULL
— precisely the older records the back-compat rule targets — reaches
the comparison as Python `None` and raises a `TypeError` (`none`
outcome) instead of being treated as maximum confidence. -/
theorem c4_review_flagging :
    (∀ n : Int, 4 ≤ n → review_needed (.score n) = some false) ∧
    review_needed (.score 3) = some false ∧
    (∀ n : Int, n ≤ 2 → review_needed (.score n) = some true) ∧
    review_needed .absent = some false ∧
    review_needed .pyNone = none := by
  refine ⟨?_, rfl, ?_, rfl, rfl⟩
  · intro n h
    simp [review_needed, get_confidence_default5, h]
  · intro n h
    have h4 : ¬ (4 ≤ n) := by omega
    have h3 : n ≠ 3 := by omega
    simp [review_needed, get_confidence_default5, h4, h3]

/-- Witness for C4: confidence 2 is flagged, confidence 5 is not. -/
theorem c4_review_flagging_witness :
    review_needed (.score 2) = some true ∧
    review_needed (.score 5) = some false :=
  ⟨c4_review_flagging.2.2.1 2 (by decide),
   c4_review_flagging.1 5 (by decide)⟩

/- ===================== C9 ===================== -/

/-- C9: submitting the verification form stamps the target row human
verified with a verification timestamp; a `Keep AI` choice stores no
override (the column becomes NULL), while a changed field is stored as
an override and thereafter governs the effective value. -/
theorem c9_keep_ai_not_stored (db : DB) (analysis_id : Nat)
    (sc : StatusChoice) (fc : FrictionChoice) (notes : String)
    (now : Nat) :
    ∀ p ∈ db.results.zip
      (submit_verification db true analysis_id sc fc notes
        now).2.results,
      p.1.id = analysis_id →
      p.2.human_verified = true ∧
      p.2.verified_at = some now ∧
      (sc = .keepAI → p.2.human_override_status = none) ∧
      (∀ s, sc = .chosen s → p.2.human_override_status = some s ∧
        (s ≠ "" →
          effective_status p.2.human_override_status p.2.status = s)) ∧
      (fc = .keepAI → p.2.human_override_friction = none) ∧
      (∀ n, fc = .chosen n → p.2.human_override_friction = some n ∧
        (n ≠ 0 →
          effective_friction p.2.human_override_friction
            p.2.friction_score = n)) := by
  intro p hp hid
  rcases sc with _ | s0 <;> rcases fc with _ | n0 <;>
  · have hpe := verify_zip_pair db analysis_id _ _ notes now p hp
    rw [if_pos hid] at hpe
    refine ⟨by rw [hpe]; rfl, by rw [hpe]; rfl, ?_, ?_, ?_, ?_⟩
    · intro h
      cases h <;> (rw [hpe]; rfl)
    · intro s h
      cases h <;>
        exact ⟨by rw [hpe]; rfl, fun hs => by
          rw [hpe]; simp [updVerifyRow, effective_status, hs]⟩
    · intro h
      cases h <;> (rw [hpe]; rfl)
    · intro n h
      cases h <;>
        exact ⟨by rw [hpe]; rfl, fun hn => by
          rw [hpe]; simp [updVerifyRow, effective_friction, hn]⟩

/-- Witness for C9: a reviewer overriding status to `Pass` and keeping
the AI friction on the fixture row — the stored record is verified,
carries only the status override, and its effective status is `Pass`. -/
theorem c9_keep_ai_not_stored_witness :
    (updVerifyRow c9Row (some "Pass") none "note" 99).human_verified =
      true ∧
    (updVerifyRow c9Row (some "Pass") none "note" 99).verified_at =
      some 99 ∧
    (updVerifyRow c9Row (some "Pass") none "note"
      99).human_override_friction = none ∧
    (updVerifyRow c9Row (some "Pass") none "note"
      99).human_override_status = some "Pass" := by
  have h := c9_keep_ai_not_stored c9DB 1 (.chosen "Pass") .keepAI
    "note" 99 (c9Row, updVerifyRow c9Row (some "Pass") none "note" 99)
    (List.mem_singleton.mpr rfl) rfl
  exact ⟨h.1, h.2.1, h.2.2.2.2.1 rfl, (h.2.2.2.1 "Pass" rfl).1⟩

/- ===================== C10 ===================== -/

/-- C10: a successful `verify_analysis` call returns `True`, leaves the
CUJ and video tables untouched, preserves the row count, leaves every
result row with a different id unchanged, and on the target row sets
the two override columns and the notes column to exactly the passed
values (so passing `None` clears a previously stored override), stamps
it verified with a timestamp, and keeps every other column of the row
unchanged. -/
theorem c10_verify_analysis_frame (db : DB) (analysis_id : Nat)
    (ost : Option String) (ofr : Option Int) (notes : String)
    (now : Nat) :
    (verify_analysis db true analysis_id ost ofr notes now).1 = true ∧
    (verify_analysis db true analysis_id ost ofr notes now).2.cujs =
      db.cujs ∧
    (verify_analysis db true analysis_id ost ofr notes now).2.videos =
      db.videos ∧
    (verify_analysis db true analysis_id ost ofr notes
      now).2.results.length = db.results.length ∧
    ∀ p ∈ db.results.zip
      (verify_analysis db true analysis_id ost ofr notes now).2.results,
      (p.1.id ≠ analysis_id → p.2 = p.1) ∧
      (p.1.id = analysis_id →
        p.2.human_override_status = ost ∧
        p.2.human_override_friction = ofr ∧
        p.2.human_notes = some notes ∧
        p.2.human_verified = true ∧
        p.2.verified_at = some now ∧
        p.2.id = p.1.id ∧
        p.2.cuj_id = p.1.cuj_id ∧
        p.2.video_id = p.1.video_id ∧
        p.2.model_used = p.1.model_used ∧
        p.2.status = p.1.status ∧
        p.2.friction_score = p.1.friction_score ∧
        p.2.confidence_score = p.1.confidence_score ∧
        p.2.observation = p.1.observation ∧
        p.2.recommendation = p.1.recommendation ∧
        p.2.key_moments = p.1.key_moments ∧
        p.2.cost = p.1.cost ∧
        p.2.raw_response = p.1.raw_response ∧
        p.2.analyzed_at = p.1.analyzed_at) := by
  refine ⟨rfl, rfl, rfl, by simp [verify_analysis], ?_⟩
  intro p hp
  have hpe := verify_zip_pair db analysis_id ost ofr notes now p hp
  constructor
  · intro hne
    rw [hpe, if_neg hne]
  · intro heq
    rw [hpe, if_pos heq]
    exact ⟨rfl, rfl, rfl, rfl, rfl, rfl, rfl, rfl, rfl, rfl, rfl, rfl,
      rfl, rfl, rfl, rfl, rfl, rfl⟩

/-- Witness for C10: verifying the fixture row — which carries stored
overrides — while passing `None` for both overrides clears them and
keeps the AI status column. -/
theorem c10_verify_analysis_frame_witness :
    (updVerifyRow c10Row none none "" 42).human_override_status =
      none ∧
    (updVerifyRow c10Row none none "" 42).human_override_friction =
      none ∧
    (updVerifyRow c10Row none none "" 42).status = c10Row.status := by
  have h := (c10_verify_analysis_frame c10DB 5 none none "" 42).2.2.2.2
    (c10Row, updVerifyRow c10Row none none "" 42)
    (List.mem_singleton.mpr rfl)
  have h2 := h.2 rfl
  exact ⟨h2.1, h2.2.1, h2.2.2.2.2.2.2.2.2.2.1⟩

/- ===================== C8 ===================== -/

theorem natMax?_eq_none : ∀ (l : List Nat), natMax? l = none → l = [] := by
  intro l h
  cases l with
  | nil => rfl
  | cons a t =>
    rw [natMax?] at h
    cases ht : natMax? t <;> rw [ht] at h <;> simp at h

theorem natMax?_spec :
    ∀ (l : List Nat) (m : Nat), natMax? l = some m →
      m ∈ l ∧ ∀ x ∈ l, x ≤ m := by
  intro l
  induction l with
  | nil => intro m h; simp [natMax?] at h
  | cons a t ih =>
    intro m h
    rw [natMax?] at h
    cases ht : natMax? t with
    | none =>
      rw [ht] at h
      simp only [Option.some.injEq] at h
      subst h
      have hte := natMax?_eq_none t ht
      subst hte
      exact ⟨List.mem_cons_self a [], by simp⟩
    | some m2 =>
      rw [ht] at h
      simp only [Option.some.injEq] at h
      subst h
      obtain ⟨hm2, hle⟩ := ih m2 ht
      constructor
      · rcases Nat.le_total a m2 with hle2 | hle2
        · have h2 : Nat.max a m2 = m2 := Nat.max_eq_right hle2
          rw [h2]
          exact List.mem_cons_of_mem a hm2
        · have h2 : Nat.max a m2 = a := Nat.max_eq_left hle2
          rw [h2]
          exact List.mem_cons_self a t
      · intro x hx
        rcases List.mem_cons.mp hx with rfl | hx
        · exact Nat.le_max_left x m2
        · exact le_trans (hle x hx) (Nat.le_max_right a m2)

theorem mem_eq_of_ids_nodup :
    ∀ (l : List ResultRow), (l.map (fun r => r.id)).Nodup →
      ∀ r ∈ l, ∀ r2 ∈ l, r2.id = r.id → r2 = r := by
  intro l
  induction l with
  | nil => intro _ r hr; simp at hr
  | cons a t ih =>
    intro hnd r hr r2 hr2 hid
    rw [List.map_cons, List.nodup_cons] at hnd
    obtain ⟨hna, hnt⟩ := hnd
    rcases List.mem_cons.mp hr with h1 | h1 <;>
      rcases List.mem_cons.mp hr2 with h2 | h2
    · rw [h1, h2]
    · exfalso
      apply hna
      rw [← h1, ← hid]
      exact List.mem_map.mpr ⟨r2, h2, rfl⟩
    · exfalso
      apply hna
      rw [← h2, hid]
      exact List.mem_map.mpr ⟨r, h1, rfl⟩
    · exact ih hnt r h1 r2 h2 hid

theorem dictInsert_mem (d : List (String × ResultView)) (k : String)
    (v : ResultView) : ∀ q ∈ dictInsert d k v, q ∈ d ∨ q = (k, v) := by
  intro q hq
  unfold dictInsert at hq
  split at hq
  · obtain ⟨q0, hq0, hq0e⟩ := List.mem_map.mp hq
    split at hq0e
    · right; exact hq0e.symm
    · left; exact hq0e ▸ hq0
  · rcases List.mem_append.mp hq with h | h
    · left; exact h
    · right; simpa using h

theorem dictInsert_keys (d : List (String × ResultView)) (k : String)
    (v : ResultView) :
    (dictInsert d k v).map Prod.fst = d.map Prod.fst ∨
    ((dictInsert d k v).map Prod.fst = d.map Prod.fst ++ [k] ∧
      k ∉ d.map Prod.fst) := by
  unfold dictInsert
  split
  · left
    rw [List.map_map]
    apply List.map_congr_left
    intro q hq
    by_cases hk : q.1 = k
    · simp [hk]
    · simp [hk]
  · right
    rename_i hany
    constructor
    · simp
    · intro hkin
      obtain ⟨q, hq, hqe⟩ := List.mem_map.mp hkin
      exact hany (List.any_eq_true.mpr ⟨q, hq, by simp [hqe]⟩)

theorem dictInsert_keys_nodup (d : List (String × ResultView))
    (k : String) (v : ResultView) (h : (d.map Prod.fst).Nodup) :
    ((dictInsert d k v).map Prod.fst).Nodup := by
  rcases dictInsert_keys d k v with he | ⟨he, hk⟩
  · rw [he]; exact h
  · rw [he, List.nodup_append]
    refine ⟨h, List.nodup_singleton k, ?_⟩
    intro x hx hx2
    simp at hx2
    subst hx2
    exact hk hx

theorem foldl_dictInsert_mem (db : DB) :
    ∀ (rs : List ResultRow) (acc : List (String × ResultView)),
      ∀ q ∈ rs.foldl
        (fun a r => dictInsert a r.cuj_id (mkView db r)) acc,
        q ∈ acc ∨ ∃ r ∈ rs, q = (r.cuj_id, mkView db r) := by
  intro rs
  induction rs with
  | nil => intro acc q hq; left; simpa using hq
  | cons r0 rs ih =>
    intro acc q hq
    rw [List.foldl_cons] at hq
    rcases ih _ q hq with hacc | ⟨r, hr, he⟩
    · rcases dictInsert_mem acc r0.cuj_id (mkView db r0) q hacc with
        h | h
      · left; exact h
      · right; exact ⟨r0, List.mem_cons_self _ _, h⟩
    · right; exact ⟨r, List.mem_cons_of_mem _ hr, he⟩

theorem foldl_dictInsert_nodup (db : DB) :
    ∀ (rs : List ResultRow) (acc : List (String × ResultView)),
      (acc.map Prod.fst).Nodup →
      ((rs.foldl (fun a r => dictInsert a r.cuj_id (mkView db r))
        acc).map Prod.fst).Nodup := by
  intro rs
  induction rs with
  | nil => intro acc h; simpa using h
  | cons r0 rs ih =>
    intro acc h
    rw [List.foldl_cons]
    exact ih _ (dictInsert_keys_nodup _ _ _ h)

theorem selectedRows_spec (db : DB) (user_id : Nat)
    (hids : (db.results.map (fun r => r.id)).Nodup) :
    ∀ r ∈ selectedRows db user_id,
      r ∈ db.results ∧
      ∀ r2 ∈ db.results, r2.cuj_id = r.cuj_id → r2.id ≤ r.id := by
  intro r hr
  obtain ⟨hrm, hpred⟩ := List.mem_filter.mp hr
  refine ⟨hrm, ?_⟩
  have hmax : r.id ∈ maxIds db user_id :=
    of_decide_eq_true ((Bool.and_eq_true _ _).mp hpred).2
  have howned : cujOwned db user_id r.cuj_id = true :=
    ((Bool.and_eq_true _ _).mp ((Bool.and_eq_true _ _).mp hpred).1).1
  obtain ⟨cid, hcid, hmf⟩ := List.mem_filterMap.mp hmax
  obtain ⟨hmem, hle⟩ := natMax?_spec (userGroupIds db user_id cid) r.id hmf
  obtain ⟨r3, hr3, hr3id⟩ := List.mem_map.mp hmem
  obtain ⟨hr3m, hp3⟩ := List.mem_filter.mp hr3
  have hr3cid : r3.cuj_id = cid := by
    have := ((Bool.and_eq_true _ _).mp hp3).1
    simpa using this
  have hr3eq : r3 = r := mem_eq_of_ids_nodup db.results hids r hrm r3 hr3m hr3id
  have hcidr : cid = r.cuj_id := by rw [← hr3cid, hr3eq]
  intro r2 hr2 hcuj
  have hgrp : r2.id ∈ userGroupIds db user_id cid := by
    apply List.mem_map.mpr
    refine ⟨r2, List.mem_filter.mpr ⟨hr2, ?_⟩, rfl⟩
    rw [Bool.and_eq_true]
    constructor
    · simp [hcuj, hcidr]
    · rw [hcidr]
      exact howned
  exact hle r2.id hgrp

/-- C8: `get_latest_results` is a pure read — the store comes back
unchanged, so all history is retained — returning a dictionary with at
most one entry per CUJ id; provided the row ids are unique (they are an
`AUTOINCREMENT` primary key), every returned entry is keyed by the
cuj id of a stored row whose id is maximal among all stored results for
that CUJ id. -/
theorem c8_latest_results (db : DB) (user_id : Nat)
    (hids : (db.results.map (fun r => r.id)).Nodup) :
    (get_latest_results db user_id).2 = db ∧
    ((get_latest_results db user_id).1.map Prod.fst).Nodup ∧
    ∀ q ∈ (get_latest_results db user_id).1,
      ∃ r ∈ db.results, r.cuj_id = q.1 ∧ q.2.analysis_id = r.id ∧
        ∀ r2 ∈ db.results, r2.cuj_id = q.1 → r2.id ≤ r.id := by
  refine ⟨rfl, ?_, ?_⟩
  · exact foldl_dictInsert_nodup db (selectedRows db user_id) []
      (by simp)
  · intro q hq
    rcases foldl_dictInsert_mem db (selectedRows db user_id) [] q hq with
      h | ⟨r, hr, he⟩
    · simp at h
    · obtain ⟨hrm, hmax⟩ := selectedRows_spec db user_id hids r hr
      subst he
      exact ⟨r, hrm, rfl, rfl, fun r2 h2 hc => hmax r2 h2 hc⟩

/-- Witness for C8: the fixture store with two results for CUJ `A` —
the query leaves the store unchanged and its keys are duplicate
free. -/
theorem c8_latest_results_witness :
    (get_latest_results c8DB 7).2 = c8DB ∧
    ((get_latest_results c8DB 7).1.map Prod.fst).Nodup :=
  ⟨(c8_latest_results c8DB 7 (by decide)).1,
   (c8_latest_results c8DB 7 (by decide)).2.1⟩
